import Mathlib

/-!
Shallow embedding of the sticker-recommendation handler
(`src/handlers/recommend.ts`) and the interfaces it consumes, together with
proofs about the behaviour of the handler.

JavaScript machine details that matter here (truthiness, `parseInt`,
`Number` coercion) are embedded explicitly.  The pieces of the repository
that `recommend.ts` imports but whose sources are not available
(`utils/response.ts`, `services/sticker.ts`, the `Env` type) are modelled
from the design document and are marked as such in their doc comments.
-/

namespace Nako

/-- JSON values as delivered by the runtime JSON parser; numbers are modelled
as rationals (JSON cannot carry NaN or infinities). -/
inductive Json where
  | null : Json
  | bool (b : Bool) : Json
  | num (q : ℚ) : Json
  | str (s : String) : Json
  | arr (elems : List Json) : Json
  | obj (fields : List (String × Json)) : Json

/-- Property access on a parsed JSON value: a missing field, or access on a
non-object, yields undefined (none). -/
def jsonGet : Json → String → Option Json
  | .obj fs, k => (fs.find? (fun f => f.fst == k)).map Prod.snd
  | _, _ => none

/-- JS truthiness of a JSON value. -/
def jsTruthy : Json → Bool
  | .null => false
  | .bool b => b
  | .num q => q != 0
  | .str s => s != ""
  | .arr _ => true
  | .obj _ => true

/-- JS truthiness where `none` stands for undefined. -/
def jsTruthyOpt : Option Json → Bool
  | none => false
  | some j => jsTruthy j

/-- Whitespace in the JS sense (ECMA WhiteSpace and LineTerminator): tab,
line feed, vertical tab, form feed, carriage return, space, NBSP, the Unicode
space separators, the line and paragraph separators, and the BOM. -/
def jsIsWhitespace (c : Char) : Bool :=
  c.toNat == 0x9 || c.toNat == 0xA || c.toNat == 0xB || c.toNat == 0xC ||
  c.toNat == 0xD || c.toNat == 0x20 || c.toNat == 0xA0 || c.toNat == 0x1680 ||
  (decide (0x2000 ≤ c.toNat) && decide (c.toNat ≤ 0x200A)) ||
  c.toNat == 0x2028 || c.toNat == 0x2029 || c.toNat == 0x202F ||
  c.toNat == 0x205F || c.toNat == 0x3000 || c.toNat == 0xFEFF

/-- JS `String.prototype.trim`: whitespace stripped from both ends.  This and
the other string primitives below are implemented on the underlying character
list so that they evaluate by kernel reduction. -/
def jsTrim (s : String) : String :=
  ⟨((s.data.dropWhile jsIsWhitespace).reverse.dropWhile jsIsWhitespace).reverse⟩

/-- Numeric value of a list of decimal digits. -/
def digitsToNat (cs : List Char) : Nat :=
  cs.foldl (fun n c => n * 10 + (c.toNat - '0'.toNat)) 0

/-- Loop of `jsSplitComma`, accumulating the current chunk in reverse. -/
def splitCommaGo : List Char → List Char → List String
  | [], acc => [⟨acc.reverse⟩]
  | c :: cs, acc =>
      if c = ',' then ⟨acc.reverse⟩ :: splitCommaGo cs []
      else splitCommaGo cs (c :: acc)

/-- JS `String.prototype.split(",")`; on the empty string it yields `[""]`. -/
def jsSplitComma (s : String) : List String :=
  splitCommaGo s.data []

/-- Value of a list of hexadecimal digits; `none` as soon as a character is
not one. -/
def hexDigitsToNat : List Char → Nat → Option Nat
  | [], acc => some acc
  | c :: cs, acc =>
      if c.isDigit then hexDigitsToNat cs (16 * acc + (c.toNat - '0'.toNat))
      else if decide ('a' ≤ c) && decide (c ≤ 'f') then
        hexDigitsToNat cs (16 * acc + (c.toNat - 'a'.toNat + 10))
      else if decide ('A' ≤ c) && decide (c ≤ 'F') then
        hexDigitsToNat cs (16 * acc + (c.toNat - 'A'.toNat + 10))
      else none

/-- Value of a list of digits in a radix of at most 10; `none` as soon as a
character is not a digit below the radix. -/
def radixDigitsToNat (radix : Nat) : List Char → Nat → Option Nat
  | [], acc => some acc
  | c :: cs, acc =>
      if c.isDigit && decide (c.toNat - '0'.toNat < radix) then
        radixDigitsToNat radix cs (radix * acc + (c.toNat - '0'.toNat))
      else none

/-- Optional exponent suffix of a JS decimal literal: the empty rest keeps the
mantissa; otherwise the whole rest must be `e`/`E`, an optional sign, and
digits, which scale the mantissa by the corresponding power of ten. -/
def jsExpPart (m : ℚ) : List Char → Option ℚ
  | [] => some m
  | c :: r =>
      if c = 'e' ∨ c = 'E' then
        let (neg, r2) : Bool × List Char :=
          match r with
          | '-' :: rr => (true, rr)
          | '+' :: rr => (false, rr)
          | _ => (false, r)
        let ed := r2.takeWhile Char.isDigit
        if ed.length = 0 ∨ ed.length ≠ r2.length then none
        else if neg then some (m / 10 ^ digitsToNat ed)
        else some (m * 10 ^ digitsToNat ed)
      else none

/-- A full JS decimal literal without sign: digits, an optional `.` fraction,
and an optional exponent; anything else is NaN (`none`). -/
def jsDecLiteral (u : List Char) : Option ℚ :=
  let ip := u.takeWhile Char.isDigit
  let r1 := u.drop ip.length
  match r1 with
  | '.' :: r2 =>
      let fp := r2.takeWhile Char.isDigit
      let r3 := r2.drop fp.length
      if ip.length = 0 && fp.length = 0 then none
      else jsExpPart ((digitsToNat ip : ℚ) + (digitsToNat fp : ℚ) / 10 ^ fp.length) r3
  | _ =>
      if ip.length = 0 then none
      else jsExpPart (digitsToNat ip : ℚ) r1

/-- JS `Number(string)` coercion on exact values: trim, the empty string is 0,
a `0x`/`0o`/`0b` prefix (no sign) reads an integer in that radix, and the rest
is a signed decimal literal with optional fraction and exponent.  `Infinity`
has no rational image and is mapped to NaN (`none`); in the handler's one
numeric context — the truthy/&gt;0/≤20 conjunction of the POST `topK` check —
infinities and NaN fail the conjunction alike, so the branch taken is
unchanged. -/
def jsStrToNumber (s : String) : Option ℚ :=
  let t := (jsTrim s).data
  match t with
  | [] => some 0
  | '0' :: 'x' :: r =>
      if r.length = 0 then none else (hexDigitsToNat r 0).map (fun n => (n : ℚ))
  | '0' :: 'X' :: r =>
      if r.length = 0 then none else (hexDigitsToNat r 0).map (fun n => (n : ℚ))
  | '0' :: 'o' :: r =>
      if r.length = 0 then none else (radixDigitsToNat 8 r 0).map (fun n => (n : ℚ))
  | '0' :: 'O' :: r =>
      if r.length = 0 then none else (radixDigitsToNat 8 r 0).map (fun n => (n : ℚ))
  | '0' :: 'b' :: r =>
      if r.length = 0 then none else (radixDigitsToNat 2 r 0).map (fun n => (n : ℚ))
  | '0' :: 'B' :: r =>
      if r.length = 0 then none else (radixDigitsToNat 2 r 0).map (fun n => (n : ℚ))
  | _ =>
      let (neg, u) : Bool × List Char :=
        match t with
        | '-' :: r => (true, r)
        | '+' :: r => (false, r)
        | _ => (false, t)
      if u = ("Infinity").data then none
      else (jsDecLiteral u).map (fun q => if neg then -q else q)

/-- JS `ToNumber` on JSON values, with NaN as `none`.  Arrays coerce through
`Array.prototype.toString` (a comma join) followed by string-to-number: the
empty array joins to the empty string (0); a single element coerces through
its own string image — a sole `null` joins as the empty string, a runtime
number's string round-trips to the same number, a nested array joins
recursively; two or more elements always keep a comma, which the numeric
grammar rejects (NaN).  Objects stringify to `[object Object]` (NaN). -/
def jsToNumber : Json → Option ℚ
  | .null => some 0
  | .bool b => some (if b then 1 else 0)
  | .num q => some q
  | .str s => jsStrToNumber s
  | .arr [] => some 0
  | .arr [.null] => some 0
  | .arr [.bool _] => none
  | .arr [.num q] => some q
  | .arr [.str s] => jsStrToNumber s
  | .arr [.arr xs] => jsToNumber (.arr xs)
  | .arr [.obj _] => none
  | .arr (_ :: _ :: _) => none
  | .obj _ => none

/-- JS relational comparison `x > q` where `x` is a possibly-undefined JSON
value: any NaN operand makes the comparison false. -/
def jsGtNum (o : Option Json) (q : ℚ) : Bool :=
  match o.bind jsToNumber with
  | some x => decide (q < x)
  | none => false

/-- JS relational comparison `x <= q` where `x` is a possibly-undefined JSON
value: any NaN operand makes the comparison false. -/
def jsLeNum (o : Option Json) (q : ℚ) : Bool :=
  match o.bind jsToNumber with
  | some x => decide (x ≤ q)
  | none => false

/-- JS `Array.isArray`. -/
def jsIsArray : Json → Bool
  | .arr _ => true
  | _ => false

/-- Elements of a JSON array (only applied to values that pass `jsIsArray`). -/
def jsonArrElems : Json → List Json
  | .arr xs => xs
  | _ => []

/-- JS `parseInt(s, 10)`: skip leading whitespace, optional sign, read the
longest decimal-digit prefix; no digits means NaN (`none`). -/
def jsParseInt (s : String) : Option Int :=
  let t := s.data.dropWhile jsIsWhitespace
  let sgn : Int := match t with | '-' :: _ => -1 | _ => 1
  let u := match t with | '-' :: r => r | '+' :: r => r | _ => t
  let digits := u.takeWhile Char.isDigit
  if digits.length = 0 then none
  else some (sgn * (digitsToNat digits : Int))

/-- A sticker hit as returned to the client (`StickerResult` in
`recommend.ts`). -/
structure StickerResult where
  assetbundleName : String
  name : String
  score : ℚ

/-- Error payload of the error envelope. -/
structure ErrorInfo where
  code : String
  message : String

/-- Body of a response: either the success envelope of `recommend.ts`
(`success: true, stickers, query`) or the error envelope. -/
inductive ResponseBody where
  | success (stickers : List StickerResult) (query : String) : ResponseBody
  | failure (e : ErrorInfo) : ResponseBody

/-- An HTTP response as observable by the client: status, headers, body. -/
structure Response where
  status : Nat
  headers : List (String × String)
  body : ResponseBody

/-- Error code of a response, when its body is the error envelope. -/
def Response.errorCode (r : Response) : Option String :=
  match r.body with
  | .failure e => some e.code
  | .success _ _ => none

/-- Modelled from the spec: `src/utils/response.ts` is not among the provided
sources.  Sections 6 and 7 of the design document define the error envelope as
`success: false` with an `error` object carrying `code` and `message`, a JSON
content type, and an HTTP status per error kind.  The handler source passes the
status explicitly or relies on a default of 400; the default is made explicit
at each call site of this embedding. -/
def createErrorResponse (code message : String) (status : Nat) : Response :=
  { status := status
    headers := [("Content-Type", "application/json")]
    body := .failure { code := code, message := message } }

/-- Success response exactly as built by `createSuccessResponse` in
`recommend.ts`: status 200 and the four literal headers. -/
def createSuccessResponse (results : List StickerResult) (query : String) : Response :=
  { status := 200
    headers :=
      [("Content-Type", "application/json"),
       ("Access-Control-Allow-Origin", "*"),
       ("Access-Control-Allow-Methods", "GET, POST, OPTIONS"),
       ("Access-Control-Allow-Headers", "Content-Type")]
    body := .success results query }

/-- The canonical parsed parameters (`ParsedParams` in `recommend.ts`).
`topK` is kept as a JSON value: the POST path forwards the supplied `topK`
value unchanged when its runtime checks pass, so nothing narrows it to a
number.  The GET path stores `excludeRecent` as an array of strings; the POST
path stores the raw field. -/
structure ParsedParams where
  prompt : String
  topK : Json
  excludeRecent : Option Json

/-- Result of a parse function: the TS union `ParsedParams | Response`. -/
inductive ParseResult where
  | ok (p : ParsedParams) : ParseResult
  | err (r : Response) : ParseResult

/-- A request as seen by the handler: method, decoded query parameters in
order, and the JSON body (`none` when the body fails to parse as JSON; only
the POST path reads it). -/
structure ReqModel where
  method : String
  queryParams : List (String × String)
  body : Option Json

/-- `url.searchParams.get(name)`: first value for the name, or null. -/
def getParam (qs : List (String × String)) (name : String) : Option String :=
  (qs.find? (fun p => p.fst == name)).map Prod.snd

/-- `parseGetRequest` from `recommend.ts`, line for line: required trimmed
prompt, `parseInt`-parsed `topK` replaced by 5 when NaN or outside [1,20],
and `excludeRecent` split on commas, trimmed, with empty elements dropped
(an empty parameter string is falsy and yields undefined). -/
def parseGetRequest (req : ReqModel) : ParseResult :=
  match getParam req.queryParams "prompt" with
  | none =>
      .err (createErrorResponse "INVALID_REQUEST" "prompt query parameter is required" 400)
  | some promptParam =>
      if promptParam = "" ∨ (jsTrim promptParam).length = 0 then
        .err (createErrorResponse "INVALID_REQUEST" "prompt query parameter is required" 400)
      else
        let prompt := jsTrim promptParam
        let topKRaw : Option Int :=
          match getParam req.queryParams "topK" with
          | none => some 5
          | some tp => if tp = "" then some 5 else jsParseInt tp
        let topK : Int :=
          match topKRaw with
          | none => 5
          | some k => if k < 1 ∨ 20 < k then 5 else k
        let excludeRecent : Option Json :=
          match getParam req.queryParams "excludeRecent" with
          | none => none
          | some ep =>
              if ep = "" then none
              else some (.arr ((((jsSplitComma ep).map jsTrim).filter
                (fun s => 0 < s.length)).map Json.str))
        .ok { prompt := prompt, topK := .num (topK : ℚ), excludeRecent := excludeRecent }

/-- Outcome of the POST body parse: either an exception escaped (a thrown
`TypeError`, caught only by the handler's top-level catch) or the parse ran to
completion with a `ParsedParams | Response` result. -/
inductive ParseOutcome where
  | thrown : ParseOutcome
  | done (r : ParseResult) : ParseOutcome

/-- Body of `parsePostRequest` for a parsed, non-null body (property access on
such a value never throws: on non-object primitives it merely yields
undefined): `prompt` must be truthy, a string, and non-empty after trimming;
`topK` is forwarded unchanged when truthy, greater than 0 and at most 20
under JS numeric comparison, else 5; `excludeRecent` is taken as-is. -/
def parsePostNonNull (body : Json) : ParseResult :=
  let pf := jsonGet body "prompt"
  if jsTruthyOpt pf = false then
    .err (createErrorResponse "INVALID_REQUEST"
      "prompt is required and must be a non-empty string" 400)
  else
    match pf with
    | some (.str s) =>
        if (jsTrim s).length = 0 then
          .err (createErrorResponse "INVALID_REQUEST"
            "prompt is required and must be a non-empty string" 400)
        else
          let tk := jsonGet body "topK"
          let topK : Json :=
            match tk with
            | some j =>
                if jsTruthy j && jsGtNum (some j) 0 && jsLeNum (some j) 20 then j
                else .num 5
            | none => .num 5
          .ok { prompt := jsTrim s, topK := topK, excludeRecent := jsonGet body "excludeRecent" }
    | _ =>
        .err (createErrorResponse "INVALID_REQUEST"
          "prompt is required and must be a non-empty string" 400)

/-- `parsePostRequest` from `recommend.ts`: an unparseable body is
`INVALID_JSON`; a body that parsed to JSON null makes the very first property
access (`body.prompt` on line 66) throw a `TypeError`, which escapes the
parser; any other body is handled by `parsePostNonNull`. -/
def parsePostRequest (req : ReqModel) : ParseOutcome :=
  match req.body with
  | none => .done (.err (createErrorResponse "INVALID_JSON" "Invalid JSON in request body" 400))
  | some .null => .thrown
  | some body => .done (parsePostNonNull body)

/-- A candidate returned by the vector store: id, metadata name, score. -/
structure Candidate where
  id : String
  name : String
  score : ℚ

/-- Modelled from the spec: the vector-store capability of `src/types.ts`
(`Env.VECTORIZE`) is not among the provided sources.  Section 6 gives its
interface: `query(vector, limit) -> sequence of {id, metadata{name}, score}`,
which may fail (`none`). -/
structure VectorStore where
  query : List ℚ → Nat → Option (List Candidate)

/-- Modelled from the spec: the `Env` binding type of `src/types.ts` is not
among the provided sources.  It carries the embedder capability (`AI`,
`embed(text) -> vector`, may fail) and the optional vector-search capability
(`VECTORIZE`, absent when not configured). -/
structure EnvModel where
  ai : String → Option (List ℚ)
  vectorize : Option VectorStore

/-- Accumulator loop for `extractRecentStickers`: walk the messages in order,
collect distinct recognized identifiers, stop once `maxCount` are found. -/
def extractGo (recognize : Json → Option String) (maxCount : Nat) :
    List Json → List String → List String
  | [], acc => acc.reverse
  | m :: ms, acc =>
      if maxCount ≤ acc.length then acc.reverse
      else
        match recognize m with
        | some i =>
            if acc.contains i then extractGo recognize maxCount ms acc
            else extractGo recognize maxCount ms (i :: acc)
        | none => extractGo recognize maxCount ms acc

/-- Modelled from the spec: `extractRecentStickers` of `src/services/sticker.ts`
is not among the provided sources.  Section 4.2: each message is scanned for an
embedded sticker reference; duplicates count once; extraction follows message
order and stops once `maxCount` distinct identifiers are collected.  The
application's reference-recognition rule is not given by the document, so it
is a parameter `recognize`; messages it does not recognize contribute
nothing. -/
def extractRecentStickers (recognize : Json → Option String)
    (messages : List Json) (maxCount : Nat) : List String :=
  extractGo recognize maxCount messages []

/-- Numeric limit the searcher derives from the `topK` value it is handed.
The spec's contract types `topK` as an int; non-integral values (which the
handler can pass) are floored here, a choice no claim depends on. -/
def jsonTopKToNat (j : Json) : Nat :=
  match jsToNumber j with
  | some q => q.floor.toNat
  | none => 0

/-- Modelled from the spec: `searchStickersWithScores` of
`src/services/sticker.ts` is not among the provided sources.  Section 4.3:
embed the prompt (failure propagates), query the store for
`topK + |excludeIds|` candidates, filter out excluded identifiers, truncate to
`topK` preserving store order, and map to `{assetbundleName, name, score}`.
`none` is a thrown error, caught by the handler's top-level catch. -/
def searchStickersWithScores (ai : String → Option (List ℚ)) (vec : VectorStore)
    (prompt : String) (topK : Json) (excludeIds : Option (List String)) :
    Option (List StickerResult) :=
  match ai prompt with
  | none => none
  | some v =>
      let k := jsonTopKToNat topK
      let limit := k + (match excludeIds with | some ids => ids.length | none => 0)
      match vec.query v limit with
      | none => none
      | some cands =>
          let remaining : List Candidate :=
            match excludeIds with
            | some ids => cands.filter (fun c : Candidate => !(ids.contains c.id))
            | none => cands
          some ((remaining.take k).map
            (fun c : Candidate => { assetbundleName := c.id, name := c.name, score := c.score }))

/-- The arguments of the one `searchStickersWithScores` invocation a request
can reach: instrumentation recording that the external capabilities were
engaged and with what. -/
structure SearchCall where
  prompt : String
  topK : Json
  excludeIds : Option (List String)

/-- Observable outcome of `handleRecommend`: the response, plus the recorded
search invocation (`none` when control never reached the searcher). -/
structure HandlerOutput where
  response : Response
  searchCall : Option SearchCall

/-- The exclusion identifiers the handler derives from parsed parameters:
`params.excludeRecent && Array.isArray(params.excludeRecent)` guards the call
to `extractRecentStickers(params.excludeRecent, 10)`; anything else means no
exclusion. -/
def exIdsOf (recognize : Json → Option String) (params : ParsedParams) :
    Option (List String) :=
  match params.excludeRecent with
  | some j =>
      if jsTruthy j && jsIsArray j then
        some (extractRecentStickers recognize (jsonArrElems j) 10)
      else none
  | none => none

/-- The tail of `handleRecommend` after method dispatch: an error result from
parsing is returned as-is; otherwise `excludeRecent` is reduced to identifiers
when it is a (truthy) array, the search runs, and a thrown search error is
caught as `INTERNAL_ERROR`. -/
def handleParsed (recognize : Json → Option String) (ai : String → Option (List ℚ))
    (vec : VectorStore) : ParseResult → HandlerOutput
  | .err r => { response := r, searchCall := none }
  | .ok params =>
      let excludeIds : Option (List String) := exIdsOf recognize params
      let call : SearchCall :=
        { prompt := params.prompt, topK := params.topK, excludeIds := excludeIds }
      match searchStickersWithScores ai vec params.prompt params.topK excludeIds with
      | none =>
          { response := createErrorResponse "INTERNAL_ERROR" "An internal error occurred" 500
            searchCall := some call }
      | some results =>
          { response := createSuccessResponse results params.prompt
            searchCall := some call }

/-- `handleRecommend` from `recommend.ts`: the VECTORIZE availability check
comes first; then method dispatch to the two parsers (any other method is
`METHOD_NOT_ALLOWED`, 405); then exclusion derivation, search, and response
assembly via `handleParsed`.  An exception thrown during the POST parse (a
null body) is caught by the function's top-level catch and answered
`INTERNAL_ERROR` 500. -/
def handleRecommend (recognize : Json → Option String) (env : EnvModel)
    (req : ReqModel) : HandlerOutput :=
  match env.vectorize with
  | none =>
      { response := createErrorResponse "VECTORIZE_UNAVAILABLE"
          "Sticker recommendation service is not available" 503
        searchCall := none }
  | some vec =>
      if req.method = "GET" then
        handleParsed recognize env.ai vec (parseGetRequest req)
      else if req.method = "POST" then
        match parsePostRequest req with
        | .thrown =>
            -- the TypeError thrown on `null.prompt` reaches the top-level
            -- catch, which answers INTERNAL_ERROR 500
            { response := createErrorResponse "INTERNAL_ERROR" "An internal error occurred" 500
              searchCall := none }
        | .done pr => handleParsed recognize env.ai vec pr
      else
        { response := createErrorResponse "METHOD_NOT_ALLOWED"
            "Only GET and POST methods are supported" 405
          searchCall := none }

/-! ### Concrete fixtures used by counterexamples and witnesses -/

/-- One half, as an explicit rational so that it evaluates by kernel
reduction. -/
def halfQ : ℚ := ⟨1, 2, by decide, by decide⟩

/-- A reference recognizer for the spec-modelled extractor: a message that is
itself a sticker identifier string is recognized as that identifier. -/
def recognize0 : Json → Option String
  | .str s => some s
  | _ => none

/-- An embedder that always succeeds with a fixed vector. -/
def ai0 : String → Option (List ℚ) := fun _ => some [1]

/-- A vector store with no candidates. -/
def store0 : VectorStore := { query := fun _ _ => some [] }

/-- A vector store holding two candidates. -/
def store1 : VectorStore :=
  { query := fun _ _ => some [⟨"a", "A", 1⟩, ⟨"b", "B", halfQ⟩] }

/-- Environment with the empty store configured. -/
def env0 : EnvModel := { ai := ai0, vectorize := some store0 }

/-- Environment with the two-candidate store configured. -/
def env1 : EnvModel := { ai := ai0, vectorize := some store1 }

/-- Environment in which the vector-search capability is not configured. -/
def envNoVec : EnvModel := { ai := ai0, vectorize := none }

/-- POST request supplying the fractional `topK` 0.5. -/
def reqC1 : ReqModel :=
  { method := "POST", queryParams := []
    body := some (.obj [("prompt", .str "hi"), ("topK", .num halfQ)]) }

/-- DELETE request (valid prompt, unsupported method). -/
def reqDel : ReqModel :=
  { method := "DELETE", queryParams := [("prompt", "hi")], body := none }

/-- POST request whose `excludeRecent` has the wrong type (a number). -/
def reqC4 : ReqModel :=
  { method := "POST", queryParams := []
    body := some (.obj [("prompt", .str "hi"), ("excludeRecent", .num 42)]) }

/-- POST request excluding the identifier `a`. -/
def reqC7 : ReqModel :=
  { method := "POST", queryParams := []
    body := some (.obj [("prompt", .str "hi"), ("excludeRecent", .arr [.str "a"])]) }

/-- GET request whose `excludeRecent` query parameter is the empty string. -/
def reqC8 : ReqModel :=
  { method := "GET", queryParams := [("prompt", "hi"), ("excludeRecent", "")], body := none }

/-- GET request with an `excludeRecent` parameter full of blanks and commas. -/
def reqW8 : ReqModel :=
  { method := "GET", queryParams := [("prompt", "hi"), ("excludeRecent", " a ,,b ")], body := none }

/-- GET request with non-numeric `topK`. -/
def reqW1 : ReqModel :=
  { method := "GET", queryParams := [("prompt", "hi"), ("topK", "abc")], body := none }

/-- POST request supplying the out-of-range integer `topK` 25. -/
def reqW25 : ReqModel :=
  { method := "POST", queryParams := []
    body := some (.obj [("prompt", .str "hi"), ("topK", .num 25)]) }

/-- POST request whose body is the JSON text `null`. -/
def reqNullBody : ReqModel :=
  { method := "POST", queryParams := [], body := some .null }

/-- GET request with no prompt parameter. -/
def reqGetNoPrompt : ReqModel :=
  { method := "GET", queryParams := [("topK", "3")], body := none }

/-- OPTIONS request. -/
def reqOpt : ReqModel := { method := "OPTIONS", queryParams := [], body := none }

/-- Fully valid GET request with `topK=3` and a padded prompt. -/
def reqGetTopK3 : ReqModel :=
  { method := "GET", queryParams := [("prompt", " hi "), ("topK", "3")], body := none }

/-! ### Helper lemmas on the handler's control flow -/

/-- With the vector-search capability unconfigured, the handler answers 503
immediately. -/
theorem handleRecommend_vec_none (recognize : Json → Option String) (env : EnvModel)
    (req : ReqModel) (hv : env.vectorize = none) :
    handleRecommend recognize env req =
      { response := createErrorResponse "VECTORIZE_UNAVAILABLE"
          "Sticker recommendation service is not available" 503
        searchCall := none } := by
  unfold handleRecommend
  rw [hv]

/-- With the capability configured, a GET request is routed through
`parseGetRequest`. -/
theorem handleRecommend_get (recognize : Json → Option String) (env : EnvModel)
    (req : ReqModel) (vs : VectorStore) (hv : env.vectorize = some vs)
    (hm : req.method = "GET") :
    handleRecommend recognize env req =
      handleParsed recognize env.ai vs (parseGetRequest req) := by
  unfold handleRecommend
  rw [hv, hm]
  simp

/-- With the capability configured, a POST request whose parse completed is
routed through `handleParsed` on the parse result. -/
theorem handleRecommend_post_done (recognize : Json → Option String) (env : EnvModel)
    (req : ReqModel) (vs : VectorStore) (pr : ParseResult)
    (hv : env.vectorize = some vs) (hm : req.method = "POST")
    (hpr : parsePostRequest req = .done pr) :
    handleRecommend recognize env req = handleParsed recognize env.ai vs pr := by
  unfold handleRecommend
  rw [hv, hm]
  simp [hpr]

/-- With the capability configured, a POST request whose parse threw is
answered `INTERNAL_ERROR` 500 by the top-level catch, with no search. -/
theorem handleRecommend_post_thrown (recognize : Json → Option String) (env : EnvModel)
    (req : ReqModel) (vs : VectorStore)
    (hv : env.vectorize = some vs) (hm : req.method = "POST")
    (hpr : parsePostRequest req = .thrown) :
    handleRecommend recognize env req =
      { response := createErrorResponse "INTERNAL_ERROR" "An internal error occurred" 500
        searchCall := none } := by
  unfold handleRecommend
  rw [hv, hm]
  simp [hpr]

/-- With the capability configured, any other method is answered 405 with no
further processing. -/
theorem handleRecommend_other_method (recognize : Json → Option String) (env : EnvModel)
    (req : ReqModel) (vs : VectorStore) (hv : env.vectorize = some vs)
    (h1 : req.method ≠ "GET") (h2 : req.method ≠ "POST") :
    handleRecommend recognize env req =
      { response := createErrorResponse "METHOD_NOT_ALLOWED"
          "Only GET and POST methods are supported" 405
        searchCall := none } := by
  unfold handleRecommend
  rw [hv]
  simp [h1, h2]


/-- A parse error short-circuits: no search is attempted. -/
theorem handleParsed_err (recognize : Json → Option String)
    (ai : String → Option (List ℚ)) (vec : VectorStore) (r : Response) :
    handleParsed recognize ai vec (.err r) = { response := r, searchCall := none } := rfl

/-- On parsed parameters, the recorded search call carries the prompt, the
topK value, and the exclusion set the handler derived. -/
theorem handleParsed_searchCall (recognize : Json → Option String)
    (ai : String → Option (List ℚ)) (vec : VectorStore) (p : ParsedParams) :
    (handleParsed recognize ai vec (.ok p)).searchCall =
      some { prompt := p.prompt, topK := p.topK, excludeIds := exIdsOf recognize p } := by
  unfold handleParsed
  cases h : searchStickersWithScores ai vec p.prompt p.topK (exIdsOf recognize p) <;>
    simp [h]

/-- A success body can only come from a successful search on the recorded
arguments, and echoes its results and the parsed prompt. -/
theorem handleParsed_success (recognize : Json → Option String)
    (ai : String → Option (List ℚ)) (vec : VectorStore) (p : ParsedParams)
    (stickers : List StickerResult) (q : String)
    (hs : (handleParsed recognize ai vec (.ok p)).response.body = .success stickers q) :
    searchStickersWithScores ai vec p.prompt p.topK (exIdsOf recognize p) = some stickers := by
  unfold handleParsed at hs
  dsimp only at hs
  cases h : searchStickersWithScores ai vec p.prompt p.topK (exIdsOf recognize p) with
  | none => rw [h] at hs; simp [createErrorResponse] at hs
  | some rs =>
      rw [h] at hs
      simp [createSuccessResponse] at hs
      rw [hs.1]

/-- Central property of the spec-modelled searcher: with an exclusion set
supplied, no returned sticker carries an excluded identifier. -/
theorem searchStickersWithScores_excludes (ai : String → Option (List ℚ))
    (vec : VectorStore) (prompt : String) (topK : Json) (ids : List String)
    (rs : List StickerResult)
    (h : searchStickersWithScores ai vec prompt topK (some ids) = some rs) :
    ∀ r ∈ rs, r.assetbundleName ∉ ids := by
  intro r hr hmem
  unfold searchStickersWithScores at h
  cases hai : ai prompt with
  | none => rw [hai] at h; exact Option.noConfusion h
  | some v =>
      rw [hai] at h
      dsimp only at h
      cases hq : vec.query v (jsonTopKToNat topK + ids.length) with
      | none => rw [hq] at h; exact Option.noConfusion h
      | some cands =>
          rw [hq] at h
          dsimp only at h
          injection h with h
          subst h
          obtain ⟨c, hc, hcr⟩ := List.mem_map.mp hr
          have hc2 : c ∈ cands.filter (fun c : Candidate => !(ids.contains c.id)) :=
            List.take_subset _ _ hc
          have hfil := (List.mem_filter.mp hc2).2
          rw [← hcr] at hmem
          simp at hfil
          exact hfil hmem

/-- Extract the witness behind a successful JS `>` comparison. -/
theorem jsGtNum_eq_true (j : Json) (a : ℚ) (h : jsGtNum (some j) a = true) :
    ∃ x, jsToNumber j = some x ∧ a < x := by
  unfold jsGtNum at h
  simp only [Option.some_bind] at h
  cases hx : jsToNumber j with
  | none => rw [hx] at h; exact Bool.noConfusion h
  | some x => rw [hx] at h; exact ⟨x, rfl, of_decide_eq_true h⟩

/-- Extract the witness behind a successful JS `<=` comparison. -/
theorem jsLeNum_eq_true (j : Json) (a : ℚ) (h : jsLeNum (some j) a = true) :
    ∃ x, jsToNumber j = some x ∧ x ≤ a := by
  unfold jsLeNum at h
  simp only [Option.some_bind] at h
  cases hx : jsToNumber j with
  | none => rw [hx] at h; exact Bool.noConfusion h
  | some x => rw [hx] at h; exact ⟨x, rfl, of_decide_eq_true h⟩

/-- A successful GET parse always carries an integer `topK` within [1,20]. -/
theorem parseGetRequest_topK_int (req : ReqModel) (p : ParsedParams)
    (h : parseGetRequest req = .ok p) :
    ∃ k : Int, p.topK = .num (k : ℚ) ∧ 1 ≤ k ∧ k ≤ 20 := by
  unfold parseGetRequest at h
  split at h
  · exact ParseResult.noConfusion h
  · split at h
    · exact ParseResult.noConfusion h
    · dsimp only at h
      injection h with h
      subst h
      dsimp only
      cases hg : getParam req.queryParams "topK" with
      | none => exact ⟨5, by norm_num⟩
      | some tp =>
          dsimp only
          by_cases htp : tp = ""
          · rw [if_pos htp]
            exact ⟨5, by norm_num⟩
          · rw [if_neg htp]
            cases hpi : jsParseInt tp with
            | none => exact ⟨5, by norm_num⟩
            | some k =>
                dsimp only
                by_cases hk : k < 1 ∨ 20 < k
                · rw [if_pos hk]
                  exact ⟨5, by norm_num⟩
                · rw [if_neg hk]
                  push_neg at hk
                  exact ⟨k, rfl, hk.1, hk.2⟩

/-- When every way of reading the GET `topK` parameter fails or lands outside
[1,20], the parsed `topK` is the default 5. -/
theorem parseGetRequest_topK_default (req : ReqModel) (p : ParsedParams)
    (h : parseGetRequest req = .ok p)
    (hbad : ∀ v, getParam req.queryParams "topK" = some v → v ≠ "" →
      ∀ k, jsParseInt v = some k → k < 1 ∨ 20 < k) :
    p.topK = .num 5 := by
  unfold parseGetRequest at h
  split at h
  · exact ParseResult.noConfusion h
  · split at h
    · exact ParseResult.noConfusion h
    · dsimp only at h
      injection h with h
      subst h
      dsimp only
      cases hg : getParam req.queryParams "topK" with
      | none => norm_num
      | some tp =>
          dsimp only
          by_cases htp : tp = ""
          · rw [if_pos htp]; norm_num
          · rw [if_neg htp]
            cases hpi : jsParseInt tp with
            | none => norm_num
            | some k =>
                dsimp only
                rw [if_pos (hbad tp hg htp k hpi)]
                norm_num

/-- A successful POST parse passes `excludeRecent` through unchanged and
computes `topK` by the literal ternary of the source. -/
theorem parsePostNonNull_fields (b : Json) (p : ParsedParams)
    (h : parsePostNonNull b = .ok p) :
    p.excludeRecent = jsonGet b "excludeRecent" ∧
    p.topK = (match jsonGet b "topK" with
      | some j => if jsTruthy j && jsGtNum (some j) 0 && jsLeNum (some j) 20 then j
          else .num 5
      | none => .num 5) := by
  unfold parsePostNonNull at h
  dsimp only at h
  split at h
  · exact ParseResult.noConfusion h
  · split at h
    · split at h
      · exact ParseResult.noConfusion h
      · injection h with h
        subst h
        exact ⟨rfl, rfl⟩
    · exact ParseResult.noConfusion h

/-- A successful POST parse carries either the default `topK` 5 or the
supplied value, the latter only when the source's three runtime checks all
pass. -/
theorem parsePostNonNull_topK_cases (b : Json) (p : ParsedParams)
    (h : parsePostNonNull b = .ok p) :
    p.topK = .num 5 ∨
      ∃ j, jsonGet b "topK" = some j ∧ p.topK = j ∧
        (jsTruthy j && jsGtNum (some j) 0 && jsLeNum (some j) 20) = true := by
  have ht := (parsePostNonNull_fields b p h).2
  cases hg : jsonGet b "topK" with
  | none => rw [hg] at ht; exact Or.inl ht
  | some j =>
      rw [hg] at ht
      dsimp only at ht
      by_cases hc : (jsTruthy j && jsGtNum (some j) 0 && jsLeNum (some j) 20) = true
      · rw [if_pos hc] at ht
        exact Or.inr ⟨j, rfl, ht, hc⟩
      · rw [if_neg hc] at ht
        exact Or.inl ht

/-- When the supplied POST `topK` fails the source's runtime checks (or is
absent), the parsed `topK` is the default 5. -/
theorem parsePostNonNull_topK_default (b : Json) (p : ParsedParams)
    (h : parsePostNonNull b = .ok p)
    (hbad : ∀ j, jsonGet b "topK" = some j →
      (jsTruthy j && jsGtNum (some j) 0 && jsLeNum (some j) 20) = false) :
    p.topK = .num 5 := by
  rcases parsePostNonNull_topK_cases b p h with h5 | ⟨j, hg, hj, hc⟩
  · exact h5
  · rw [hbad j hg] at hc
    exact Bool.noConfusion hc

/-- The numeric coercion of a successful parse's `topK` lies in (0, 20]. -/
theorem parsePostNonNull_topK_range (b : Json) (p : ParsedParams)
    (h : parsePostNonNull b = .ok p) :
    ∃ q : ℚ, jsToNumber p.topK = some q ∧ 0 < q ∧ q ≤ 20 := by
  rcases parsePostNonNull_topK_cases b p h with h5 | ⟨j, _, hj, hc⟩
  · exact ⟨5, by rw [h5]; rfl, by norm_num, by norm_num⟩
  · simp only [Bool.and_eq_true] at hc
    obtain ⟨x, hx, hgt⟩ := jsGtNum_eq_true j 0 hc.1.2
    obtain ⟨y, hy, hle⟩ := jsLeNum_eq_true j 20 hc.2
    rw [hx] at hy
    injection hy with hy
    subst hy
    exact ⟨x, by rw [hj]; exact hx, hgt, hle⟩

/-- Invalid GET prompt: parameter missing, empty, or blank after trimming. -/
def promptInvalidGet (req : ReqModel) : Bool :=
  match getParam req.queryParams "prompt" with
  | none => true
  | some p => decide (p = "") || decide ((jsTrim p).length = 0)

/-- Invalid POST prompt: field missing, falsy, not a string, or blank after
trimming. -/
def promptInvalidPost (b : Json) : Bool :=
  match jsonGet b "prompt" with
  | some (.str s) => !(jsTruthy (.str s)) || decide ((jsTrim s).length = 0)
  | some _ => true
  | none => true

/-- An invalid GET prompt makes `parseGetRequest` answer `INVALID_REQUEST`. -/
theorem parseGetRequest_invalid (req : ReqModel)
    (h : promptInvalidGet req = true) :
    parseGetRequest req =
      .err (createErrorResponse "INVALID_REQUEST"
        "prompt query parameter is required" 400) := by
  unfold promptInvalidGet at h
  unfold parseGetRequest
  cases hg : getParam req.queryParams "prompt" with
  | none => rfl
  | some pp =>
      rw [hg] at h
      dsimp only at h
      simp only [Bool.or_eq_true, decide_eq_true_eq] at h
      dsimp only
      rw [if_pos h]

/-- An invalid prompt makes the non-null POST body parse answer
`INVALID_REQUEST`. -/
theorem parsePostNonNull_invalid (b : Json)
    (h : promptInvalidPost b = true) :
    parsePostNonNull b =
      .err (createErrorResponse "INVALID_REQUEST"
        "prompt is required and must be a non-empty string" 400) := by
  unfold promptInvalidPost at h
  unfold parsePostNonNull
  dsimp only
  cases hg : jsonGet b "prompt" with
  | none => rfl
  | some j =>
      rw [hg] at h
      cases j with
      | str s =>
          dsimp only at h
          simp only [Bool.or_eq_true, Bool.not_eq_eq_eq_not, Bool.not_true,
            decide_eq_true_eq] at h
          rcases h with hfal | hlen
          · rw [if_pos (by rw [show jsTruthyOpt (some (.str s)) = jsTruthy (.str s) from rfl, hfal])]
          · by_cases hfal : jsTruthyOpt (some (.str s)) = false
            · rw [if_pos hfal]
            · rw [if_neg hfal]
              dsimp only
              rw [if_pos hlen]
      | null =>
          by_cases hfal : jsTruthyOpt (some Json.null) = false
          · rw [if_pos hfal]
          · rw [if_neg hfal]
      | bool v =>
          by_cases hfal : jsTruthyOpt (some (Json.bool v)) = false
          · rw [if_pos hfal]
          · rw [if_neg hfal]
      | num q =>
          by_cases hfal : jsTruthyOpt (some (Json.num q)) = false
          · rw [if_pos hfal]
          · rw [if_neg hfal]
      | arr xs =>
          by_cases hfal : jsTruthyOpt (some (Json.arr xs)) = false
          · rw [if_pos hfal]
          · rw [if_neg hfal]
      | obj fs =>
          by_cases hfal : jsTruthyOpt (some (Json.obj fs)) = false
          · rw [if_pos hfal]
          · rw [if_neg hfal]

/-- Any recorded search call arose with the capability configured, through
exactly one of the two parsers, and carries that parser's output. -/
theorem handleRecommend_searchCall_cases (recognize : Json → Option String)
    (env : EnvModel) (req : ReqModel) (c : SearchCall)
    (hc : (handleRecommend recognize env req).searchCall = some c) :
    ∃ vs, env.vectorize = some vs ∧
      ((req.method = "GET" ∧ ∃ p, parseGetRequest req = .ok p ∧
          c = { prompt := p.prompt, topK := p.topK, excludeIds := exIdsOf recognize p })
       ∨ (req.method ≠ "GET" ∧ req.method = "POST" ∧
          ∃ p, parsePostRequest req = .done (.ok p) ∧
          c = { prompt := p.prompt, topK := p.topK, excludeIds := exIdsOf recognize p })) := by
  cases hv : env.vectorize with
  | none =>
      rw [handleRecommend_vec_none recognize env req hv] at hc
      exact Option.noConfusion hc
  | some vs =>
      refine ⟨vs, rfl, ?_⟩
      by_cases hg : req.method = "GET"
      · rw [handleRecommend_get recognize env req vs hv hg] at hc
        cases hp : parseGetRequest req with
        | err r =>
            rw [hp, handleParsed_err] at hc
            exact Option.noConfusion hc
        | ok p =>
            rw [hp, handleParsed_searchCall] at hc
            injection hc with hc
            exact Or.inl ⟨hg, p, rfl, hc.symm⟩
      · by_cases hpost : req.method = "POST"
        · cases hpr : parsePostRequest req with
          | thrown =>
              rw [handleRecommend_post_thrown recognize env req vs hv hpost hpr] at hc
              exact Option.noConfusion hc
          | done pr =>
              rw [handleRecommend_post_done recognize env req vs pr hv hpost hpr] at hc
              cases pr with
              | err r =>
                  rw [handleParsed_err] at hc
                  exact Option.noConfusion hc
              | ok p =>
                  rw [handleParsed_searchCall] at hc
                  injection hc with hc
                  exact Or.inr ⟨hg, hpost, p, rfl, hc.symm⟩
        · rw [handleRecommend_other_method recognize env req vs hv hg hpost] at hc
          exact Option.noConfusion hc

/-- A completed, successful POST parse presupposes a parseable, non-null body
whose non-null parse produced the parameters. -/
theorem parsePostRequest_done_ok (req : ReqModel) (p : ParsedParams)
    (h : parsePostRequest req = .done (.ok p)) :
    ∃ b, req.body = some b ∧ b ≠ Json.null ∧ parsePostNonNull b = .ok p := by
  unfold parsePostRequest at h
  cases hb : req.body with
  | none =>
      rw [hb] at h
      injection h with h
      exact ParseResult.noConfusion h
  | some b =>
      rw [hb] at h
      cases b
      case null => exact ParseOutcome.noConfusion h
      all_goals exact ⟨_, rfl, fun hn => Json.noConfusion hn, by injection h⟩

/-- With a parsed non-null body, the POST parse completes with the non-null
parse's result. -/
theorem parsePostRequest_eq (req : ReqModel) (b : Json)
    (hb : req.body = some b) (hnn : b ≠ Json.null) :
    parsePostRequest req = .done (parsePostNonNull b) := by
  unfold parsePostRequest
  rw [hb]
  cases b
  case null => exact absurd rfl hnn
  all_goals rfl

/-! ### Claim C1 -/

/-- Claim C1 counterexample: a POST request supplying `topK = 0.5` — a numeric
value outside [1,20] — reaches the searcher with `topK` 0.5, not the default
5, refuting the claim as stated. -/
theorem post_fractional_topK_passed_cex :
    (handleRecommend recognize0 env0 reqC1).searchCall
        = some { prompt := "hi", topK := Json.num halfQ, excludeIds := none }
    ∧ Json.num halfQ ≠ Json.num 5
    ∧ ¬((1 : ℚ) ≤ halfQ ∧ halfQ ≤ 20) := by
  refine ⟨rfl, ?_, by decide⟩
  intro h
  injection h with h
  exact absurd h (by decide)

/-- A supplied POST `topK` that is null, `false`, a number at most 0, or an
integer above 20 fails the source's line-71 conjunction.  (The integrality
proviso keeps the statement robust under the runtime's floating-point reading
of numeric literals: a non-integral literal just above 20 can round to the
double 20 and pass.) -/
theorem postCheck_false_of_robust (j : Json)
    (h : j = .null ∨ j = .bool false ∨
      ∃ q : ℚ, j = .num q ∧ (q ≤ 0 ∨ (q.den = 1 ∧ 20 < q))) :
    (jsTruthy j && jsGtNum (some j) 0 && jsLeNum (some j) 20) = false := by
  rcases h with h | h | ⟨q, h, hq⟩ <;> subst h
  · rfl
  · rfl
  · rcases hq with hle | ⟨_, hgt⟩
    · have h0 : jsGtNum (some (Json.num q)) 0 = false :=
        decide_eq_false (not_lt.mpr hle)
      rw [h0, Bool.and_false, Bool.false_and]
    · have h20 : jsLeNum (some (Json.num q)) 20 = false :=
        decide_eq_false (not_le.mpr hgt)
      rw [h20, Bool.and_false]

/-- Claim C1 (amended): for GET requests the effective `topK` passed to the
search is exactly 5 whenever the parameter is absent, empty, or its `parseInt`
integer prefix is NaN or outside [1,20].  For POST requests the defaulting
rule survives only where JS coercion is exactly captured: a supplied `topK`
that is null, `false`, a number at most 0, or an integer above 20 is replaced
by 5.  Any other supplied value follows the source's JS coercion checks
(truthy, greater than 0, at most 20) and is forwarded unchanged when these
pass — including non-integral numbers below 1 such as 0.5 (the
counterexample), and strings or singleton arrays whose numeric image lands in
(0,20]. -/
theorem effective_topK_default_amended (recognize : Json → Option String)
    (env : EnvModel) (req : ReqModel) (c : SearchCall)
    (hc : (handleRecommend recognize env req).searchCall = some c) :
    (req.method = "GET" →
      (∀ v, getParam req.queryParams "topK" = some v → v ≠ "" →
        ∀ k, jsParseInt v = some k → k < 1 ∨ 20 < k) →
      c.topK = .num 5)
    ∧ (req.method = "POST" →
      ∀ j, req.body.bind (fun b => jsonGet b "topK") = some j →
        (j = .null ∨ j = .bool false ∨
          ∃ q : ℚ, j = .num q ∧ (q ≤ 0 ∨ (q.den = 1 ∧ 20 < q))) →
        c.topK = .num 5) := by
  obtain ⟨vs, hv, hcase⟩ := handleRecommend_searchCall_cases recognize env req c hc
  constructor
  · intro hm hbad
    rcases hcase with ⟨_, p, hp, hcp⟩ | ⟨hne, _, _⟩
    · rw [hcp]
      exact parseGetRequest_topK_default req p hp hbad
    · exact absurd hm hne
  · intro hm j hj hrobust
    rcases hcase with ⟨hget, _⟩ | ⟨_, _, p, hp, hcp⟩
    · rw [hget] at hm
      exact absurd hm (by decide)
    · obtain ⟨b, hb, hnn, hpn⟩ := parsePostRequest_done_ok req p hp
      rw [hcp]
      refine parsePostNonNull_topK_default b p hpn ?_
      intro j2 hj2
      rw [hb] at hj
      simp only [Option.some_bind] at hj
      rw [hj2] at hj
      injection hj with hj
      rw [hj]
      exact postCheck_false_of_robust j hrobust

/-- Claim C1 witness: a POST request supplying the integer 25 — above 20 —
reaches the searcher with the default 5. -/
theorem effective_topK_default_witness :
    (handleRecommend recognize0 env0 reqW25).searchCall
        = some { prompt := "hi", topK := Json.num 5, excludeIds := none }
    ∧ ({ prompt := "hi", topK := Json.num 5, excludeIds := none } : SearchCall).topK
        = Json.num 5 := by
  constructor
  · rfl
  · exact (effective_topK_default_amended recognize0 env0 reqW25
      { prompt := "hi", topK := Json.num 5, excludeIds := none } rfl).2 rfl
      (.num 25) rfl (Or.inr (Or.inr ⟨25, rfl, Or.inr ⟨rfl, by norm_num⟩⟩))

/-! ### Claim C2 -/

/-- Claim C2 counterexample: with POST `topK = 0.5`, the value passed to the
searcher is not an integer and does not lie in [1,20]. -/
theorem searcher_topK_not_integer_cex :
    (handleRecommend recognize0 env0 reqC1).searchCall
        = some { prompt := "hi", topK := Json.num halfQ, excludeIds := none }
    ∧ ¬(halfQ.den = 1 ∧ 1 ≤ halfQ ∧ halfQ ≤ 20) :=
  ⟨rfl, by decide⟩

/-- Claim C2 (amended): every `topK` reaching the searcher has a numeric
coercion in (0,20]; on the GET path it is moreover an integer in [1,20]. -/
theorem searcher_topK_range_amended (recognize : Json → Option String)
    (env : EnvModel) (req : ReqModel) (c : SearchCall)
    (hc : (handleRecommend recognize env req).searchCall = some c) :
    ∃ q : ℚ, jsToNumber c.topK = some q ∧ 0 < q ∧ q ≤ 20 ∧
      (req.method = "GET" → c.topK = .num q ∧ q.den = 1 ∧ 1 ≤ q) := by
  obtain ⟨vs, hv, hcase⟩ := handleRecommend_searchCall_cases recognize env req c hc
  rcases hcase with ⟨hget, p, hp, hcp⟩ | ⟨hne, hpost, p, hp, hcp⟩
  · obtain ⟨k, hk, h1, h20⟩ := parseGetRequest_topK_int req p hp
    refine ⟨(k : ℚ), ?_, ?_, ?_, fun _ => ⟨?_, Rat.den_intCast k, by exact_mod_cast h1⟩⟩
    · rw [hcp]
      dsimp only
      rw [hk]
      rfl
    · have : (0 : Int) < k := by omega
      exact_mod_cast this
    · exact_mod_cast h20
    · rw [hcp]
      dsimp only
      rw [hk]
  · obtain ⟨b, hb, hnn, hpn⟩ := parsePostRequest_done_ok req p hp
    obtain ⟨q, hq, h0, h20⟩ := parsePostNonNull_topK_range b p hpn
    refine ⟨q, ?_, h0, h20, fun hg => absurd hg hne⟩
    rw [hcp]
    exact hq

/-- Claim C2 witness: a GET request with `topK=3` reaches the searcher with
the integer 3, whose coercion is 3 ∈ (0,20] and whose denominator is 1. -/
theorem searcher_topK_range_witness :
    jsToNumber (Json.num ((3 : Int) : ℚ)) = some ((3 : Int) : ℚ)
    ∧ (0 : ℚ) < ((3 : Int) : ℚ) ∧ ((3 : Int) : ℚ) ≤ 20 ∧ ((3 : Int) : ℚ).den = 1 := by
  obtain ⟨q, hq, h0, h20, hget⟩ := searcher_topK_range_amended recognize0 env0 reqGetTopK3
    { prompt := "hi", topK := Json.num ((3 : Int) : ℚ), excludeIds := none } rfl
  have hq2 : some ((3 : Int) : ℚ) = some q := hq
  injection hq2 with hq2
  subst hq2
  exact ⟨rfl, h0, h20, (hget rfl).2.1⟩

/-! ### Claim C3 -/

/-- Claim C3 counterexample: a DELETE request in an environment without the
vector-search capability is answered `VECTORIZE_UNAVAILABLE` 503, not
`METHOD_NOT_ALLOWED` 405 — the availability check precedes the method check,
so the claim's "regardless of the environment" fails. -/
theorem method_check_after_vectorize_cex :
    (handleRecommend recognize0 envNoVec reqDel).response.status = 503
    ∧ (handleRecommend recognize0 envNoVec reqDel).response.errorCode
        = some "VECTORIZE_UNAVAILABLE"
    ∧ (handleRecommend recognize0 envNoVec reqDel).response.status ≠ 405
    ∧ (handleRecommend recognize0 envNoVec reqDel).response.errorCode
        ≠ some "METHOD_NOT_ALLOWED" := by
  exact ⟨rfl, rfl, by decide, by decide⟩

/-- Claim C3 (amended): provided the vector-search capability is configured,
any method other than GET and POST is answered `METHOD_NOT_ALLOWED` with
status 405 and no further processing, regardless of the rest of the
request. -/
theorem method_not_allowed_amended (recognize : Json → Option String)
    (env : EnvModel) (req : ReqModel) (vs : VectorStore)
    (hv : env.vectorize = some vs)
    (h1 : req.method ≠ "GET") (h2 : req.method ≠ "POST") :
    (handleRecommend recognize env req).response.status = 405
    ∧ (handleRecommend recognize env req).response.errorCode
        = some "METHOD_NOT_ALLOWED"
    ∧ (handleRecommend recognize env req).searchCall = none := by
  rw [handleRecommend_other_method recognize env req vs hv h1 h2]
  exact ⟨rfl, rfl, rfl⟩

/-- Claim C3 witness: a DELETE request with the capability configured is
answered 405 with no search. -/
theorem method_not_allowed_witness :
    (handleRecommend recognize0 env0 reqDel).response.status = 405
    ∧ (handleRecommend recognize0 env0 reqDel).response.errorCode
        = some "METHOD_NOT_ALLOWED"
    ∧ (handleRecommend recognize0 env0 reqDel).searchCall = none :=
  method_not_allowed_amended recognize0 env0 reqDel store0 rfl (by decide) (by decide)

/-- After a successful parse the response is either the success envelope or
`INTERNAL_ERROR`; no validation error can be raised any more. -/
theorem handleParsed_ok_errorCode (recognize : Json → Option String)
    (ai : String → Option (List ℚ)) (vec : VectorStore) (p : ParsedParams) :
    (handleParsed recognize ai vec (.ok p)).response.errorCode = none ∨
    (handleParsed recognize ai vec (.ok p)).response.errorCode
        = some "INTERNAL_ERROR" := by
  unfold handleParsed
  dsimp only
  cases h : searchStickersWithScores ai vec p.prompt p.topK (exIdsOf recognize p) <;>
    simp [h, Response.errorCode, createErrorResponse, createSuccessResponse]

/-! ### Claim C4 -/

/-- Claim C4 counterexample: a POST request whose `excludeRecent` is the
number 42 — not an array of strings — is not rejected with `INVALID_REQUEST`:
it succeeds with status 200 and the searcher is invoked without exclusions. -/
theorem excludeRecent_wrong_type_no_error_cex :
    (handleRecommend recognize0 env0 reqC4).response.errorCode
        ≠ some "INVALID_REQUEST"
    ∧ (handleRecommend recognize0 env0 reqC4).response.status = 200
    ∧ (handleRecommend recognize0 env0 reqC4).searchCall
        = some { prompt := "hi", topK := Json.num 5, excludeIds := none } := by
  exact ⟨by decide, rfl, rfl⟩

/-- Claim C4 (amended): a POST `excludeRecent` of the wrong type (present but
not an array) is silently ignored — the request proceeds with no exclusion set
and no `INVALID_REQUEST` is raised for it. -/
theorem excludeRecent_wrong_type_ignored (recognize : Json → Option String)
    (env : EnvModel) (req : ReqModel) (b j : Json) (c : SearchCall)
    (hm : req.method = "POST")
    (hb : req.body = some b) (hj : jsonGet b "excludeRecent" = some j)
    (ha : jsIsArray j = false)
    (hc : (handleRecommend recognize env req).searchCall = some c) :
    c.excludeIds = none
    ∧ (handleRecommend recognize env req).response.errorCode
        ≠ some "INVALID_REQUEST" := by
  obtain ⟨vs, hv, hcase⟩ := handleRecommend_searchCall_cases recognize env req c hc
  rcases hcase with ⟨hget, _⟩ | ⟨hne, hpost, p, hp, hcp⟩
  · rw [hget] at hm
    exact absurd hm (by decide)
  · obtain ⟨b0, hb0, hnn0, hpn0⟩ := parsePostRequest_done_ok req p hp
    rw [hb] at hb0
    injection hb0 with hb0
    subst hb0
    constructor
    · rw [hcp]
      dsimp only
      unfold exIdsOf
      have hex : p.excludeRecent = some j := by
        rw [(parsePostNonNull_fields b p hpn0).1, hj]
      rw [hex]
      dsimp only
      rw [ha]
      simp
    · rw [handleRecommend_post_done recognize env req vs (.ok p) hv hpost hp]
      rcases handleParsed_ok_errorCode recognize env.ai vs p with h | h <;> rw [h] <;> simp

/-- Claim C4 witness: the wrong-typed `excludeRecent` request of the
counterexample indeed proceeds with no exclusion set. -/
theorem excludeRecent_wrong_type_witness :
    ({ prompt := "hi", topK := Json.num 5, excludeIds := none } : SearchCall).excludeIds
        = none
    ∧ (handleRecommend recognize0 env0 reqC4).response.errorCode
        ≠ some "INVALID_REQUEST" :=
  excludeRecent_wrong_type_ignored recognize0 env0 reqC4
    (.obj [("prompt", .str "hi"), ("excludeRecent", .num 42)]) (.num 42)
    { prompt := "hi", topK := Json.num 5, excludeIds := none }
    rfl rfl rfl rfl rfl

/-! ### Claim C5 -/

/-- Claim C5: with the vector-search capability unconfigured, every request —
whatever its method, prompt, `topK` or `excludeRecent` — is answered
`VECTORIZE_UNAVAILABLE` with status 503 and neither parser nor searcher ever
runs. -/
theorem vectorize_unavailable_first (recognize : Json → Option String)
    (env : EnvModel) (req : ReqModel) (hv : env.vectorize = none) :
    (handleRecommend recognize env req).response.status = 503
    ∧ (handleRecommend recognize env req).response.errorCode
        = some "VECTORIZE_UNAVAILABLE"
    ∧ (handleRecommend recognize env req).searchCall = none := by
  rw [handleRecommend_vec_none recognize env req hv]
  exact ⟨rfl, rfl, rfl⟩

/-- Claim C5 witness: an otherwise fully valid GET request is still answered
503 when the capability is unconfigured. -/
theorem vectorize_unavailable_witness :
    (handleRecommend recognize0 envNoVec reqGetTopK3).response.status = 503
    ∧ (handleRecommend recognize0 envNoVec reqGetTopK3).response.errorCode
        = some "VECTORIZE_UNAVAILABLE"
    ∧ (handleRecommend recognize0 envNoVec reqGetTopK3).searchCall = none :=
  vectorize_unavailable_first recognize0 envNoVec reqGetTopK3 rfl

/-! ### Claim C6 -/

/-- Claim C6 counterexample: a POST request whose body is the JSON text
`null` has no prompt, yet the handler does not answer `INVALID_REQUEST`: the
first property access (`body.prompt`) throws a `TypeError`, and the top-level
catch answers `INTERNAL_ERROR` with status 500. -/
theorem post_null_body_internal_error_cex :
    (handleRecommend recognize0 env0 reqNullBody).response.status = 500
    ∧ (handleRecommend recognize0 env0 reqNullBody).response.errorCode
        = some "INTERNAL_ERROR"
    ∧ (handleRecommend recognize0 env0 reqNullBody).response.errorCode
        ≠ some "INVALID_REQUEST"
    ∧ (handleRecommend recognize0 env0 reqNullBody).searchCall = none :=
  ⟨rfl, rfl, by decide, rfl⟩

/-- Claim C6 (amended): with the capability configured, a GET request whose
prompt is missing, empty, or blank after trimming, and a POST request whose
body parsed to a non-null value whose prompt is missing, falsy, not a string,
or empty after trimming, are answered `INVALID_REQUEST` with status 400, and
neither the embedder nor the vector store is invoked.  A POST body of JSON
null instead throws on the prompt access and is answered `INTERNAL_ERROR`
500. -/
theorem invalid_prompt_rejected_early (recognize : Json → Option String)
    (env : EnvModel) (req : ReqModel) (vs : VectorStore)
    (hv : env.vectorize = some vs)
    (h : (req.method = "GET" ∧ promptInvalidGet req = true)
       ∨ (req.method = "POST" ∧
          ∃ b, req.body = some b ∧ b ≠ Json.null ∧ promptInvalidPost b = true)) :
    (handleRecommend recognize env req).response.errorCode = some "INVALID_REQUEST"
    ∧ (handleRecommend recognize env req).response.status = 400
    ∧ (handleRecommend recognize env req).searchCall = none := by
  rcases h with ⟨hm, hbad⟩ | ⟨hm, b, hb, hnn, hbad⟩
  · rw [handleRecommend_get recognize env req vs hv hm,
      parseGetRequest_invalid req hbad, handleParsed_err]
    exact ⟨rfl, rfl, rfl⟩
  · rw [handleRecommend_post_done recognize env req vs (parsePostNonNull b) hv hm
      (parsePostRequest_eq req b hb hnn),
      parsePostNonNull_invalid b hbad, handleParsed_err]
    exact ⟨rfl, rfl, rfl⟩

/-- Claim C6 witness: a GET request with no prompt parameter is answered 400
`INVALID_REQUEST` with no search. -/
theorem invalid_prompt_witness :
    (handleRecommend recognize0 env0 reqGetNoPrompt).response.errorCode
        = some "INVALID_REQUEST"
    ∧ (handleRecommend recognize0 env0 reqGetNoPrompt).response.status = 400
    ∧ (handleRecommend recognize0 env0 reqGetNoPrompt).searchCall = none :=
  invalid_prompt_rejected_early recognize0 env0 reqGetNoPrompt store0 rfl
    (Or.inl ⟨rfl, rfl⟩)

/-- A second exercise of the amended C6 on its POST side: a non-null body
with an empty prompt is answered 400, in contrast to the null body of the
counterexample. -/
theorem invalid_prompt_post_example :
    (handleRecommend recognize0 env0
        { method := "POST", queryParams := [], body := some (.obj [("prompt", .str "")]) }
      ).response.status = 400 := by
  rfl

/-! ### Claim C7 -/

/-- Claim C7: when a request reaches the searcher with a derived exclusion
set, no sticker of the success response carries an excluded
`assetbundleName`. -/
theorem excluded_ids_not_returned (recognize : Json → Option String)
    (env : EnvModel) (req : ReqModel) (c : SearchCall) (ids : List String)
    (stickers : List StickerResult) (q : String)
    (hc : (handleRecommend recognize env req).searchCall = some c)
    (hids : c.excludeIds = some ids)
    (hs : (handleRecommend recognize env req).response.body = .success stickers q) :
    ∀ s ∈ stickers, s.assetbundleName ∉ ids := by
  obtain ⟨vs, hv, hcase⟩ := handleRecommend_searchCall_cases recognize env req c hc
  rcases hcase with ⟨hget, p, hp, hcp⟩ | ⟨hne, hpost, p, hp, hcp⟩
  · rw [handleRecommend_get recognize env req vs hv hget, hp] at hs
    have hsearch := handleParsed_success recognize env.ai vs p stickers q hs
    rw [hcp] at hids
    dsimp only at hids
    rw [hids] at hsearch
    exact searchStickersWithScores_excludes env.ai vs p.prompt p.topK ids stickers hsearch
  · rw [handleRecommend_post_done recognize env req vs (.ok p) hv hpost hp] at hs
    have hsearch := handleParsed_success recognize env.ai vs p stickers q hs
    rw [hcp] at hids
    dsimp only at hids
    rw [hids] at hsearch
    exact searchStickersWithScores_excludes env.ai vs p.prompt p.topK ids stickers hsearch

/-- Claim C7 witness: excluding `a` against a store holding `a` and `b`
returns only `b`, and `b` is not in the exclusion set. -/
theorem excluded_ids_witness :
    ({ assetbundleName := "b", name := "B", score := halfQ } : StickerResult).assetbundleName
        ∉ (["a"] : List String) :=
  excluded_ids_not_returned recognize0 env1 reqC7
    { prompt := "hi", topK := Json.num 5, excludeIds := some ["a"] } ["a"]
    [{ assetbundleName := "b", name := "B", score := halfQ }] "hi"
    rfl rfl rfl { assetbundleName := "b", name := "B", score := halfQ } (by simp)

/-! ### Claim C8 -/

/-- Claim C8 counterexample: with `excludeRecent` present but equal to the
empty string, the comma-split-trim-filter pipeline would give the empty list,
yet the parser produces no list at all (the empty string is falsy). -/
theorem excludeRecent_empty_param_cex :
    getParam reqC8.queryParams "excludeRecent" = some ""
    ∧ parseGetRequest reqC8
        = .ok { prompt := "hi", topK := .num 5, excludeRecent := none }
    ∧ ((jsSplitComma "").map jsTrim).filter (fun s => 0 < s.length) = []
    ∧ (none : Option Json) ≠ some (.arr []) :=
  ⟨rfl, rfl, rfl, fun h => Option.noConfusion h⟩

/-- Claim C8 (amended): on a successful GET parse, `excludeRecent` is absent
when the parameter is absent or empty, and otherwise is exactly the
comma-separated elements of the parameter, each trimmed, with empty elements
dropped. -/
theorem get_excludeRecent_parsing_amended (req : ReqModel) (p : ParsedParams)
    (h : parseGetRequest req = .ok p) :
    p.excludeRecent = (getParam req.queryParams "excludeRecent").bind
      (fun v => if v = "" then none
        else some (.arr ((((jsSplitComma v).map jsTrim).filter
          (fun s => 0 < s.length)).map Json.str))) := by
  unfold parseGetRequest at h
  split at h
  · exact ParseResult.noConfusion h
  · split at h
    · exact ParseResult.noConfusion h
    · dsimp only at h
      injection h with h
      subst h
      dsimp only
      cases hg : getParam req.queryParams "excludeRecent" with
      | none => rfl
      | some v => rfl

/-- Claim C8 witness: the parameter value `" a ,,b "` parses to exactly the
trimmed non-empty elements `a` and `b`. -/
theorem get_excludeRecent_witness :
    ({ prompt := "hi", topK := Json.num 5,
        excludeRecent := some (.arr [.str "a", .str "b"]) } : ParsedParams).excludeRecent
      = (getParam reqW8.queryParams "excludeRecent").bind
        (fun v => if v = "" then none
          else some (.arr ((((jsSplitComma v).map jsTrim).filter
            (fun s => 0 < s.length)).map Json.str))) :=
  get_excludeRecent_parsing_amended reqW8
    { prompt := "hi", topK := Json.num 5,
      excludeRecent := some (.arr [.str "a", .str "b"]) } rfl

/-! ### Claim C9 -/

/-- A concrete request, for the determinism witness. -/
def reqRepeat1 : ReqModel :=
  { method := "GET", queryParams := [("prompt", "hello")], body := none }

/-- A second, syntactically separate request with the same fields. -/
def reqRepeat2 : ReqModel :=
  { method := "GET", queryParams := [("prompt", "hello")], body := none }

/-- Claim C9: the handler is deterministic — two requests with the same
method, query parameters and body, handled against the same environment (the
same embedder and vector-store behaviour), produce identical outputs,
including the order of the returned stickers. -/
theorem handler_deterministic (recognize : Json → Option String) (env : EnvModel)
    (r1 r2 : ReqModel) (hm : r1.method = r2.method)
    (hq : r1.queryParams = r2.queryParams) (hb : r1.body = r2.body) :
    handleRecommend recognize env r1 = handleRecommend recognize env r2 := by
  cases r1
  cases r2
  cases hm
  cases hq
  cases hb
  rfl

/-- Claim C9 witness: two syntactically distinct but field-identical requests
yield the same output. -/
theorem handler_deterministic_witness :
    handleRecommend recognize0 env1 reqRepeat1 = handleRecommend recognize0 env1 reqRepeat2 :=
  handler_deterministic recognize0 env1 reqRepeat1 reqRepeat2 rfl rfl rfl

/-! ### Claim C10 -/

/-- Claim C10: with the capability configured, an OPTIONS request is answered
`METHOD_NOT_ALLOWED` with status 405, even though every success response
advertises OPTIONS in its `Access-Control-Allow-Methods` header. -/
theorem options_method_rejected (recognize : Json → Option String)
    (env : EnvModel) (req : ReqModel) (vs : VectorStore)
    (hv : env.vectorize = some vs) (hm : req.method = "OPTIONS") :
    (handleRecommend recognize env req).response.status = 405
    ∧ (handleRecommend recognize env req).response.errorCode
        = some "METHOD_NOT_ALLOWED"
    ∧ ∀ (results : List StickerResult) (query : String),
        ("Access-Control-Allow-Methods", "GET, POST, OPTIONS")
          ∈ (createSuccessResponse results query).headers := by
  have h := handleRecommend_other_method recognize env req vs hv
    (by rw [hm]; decide) (by rw [hm]; decide)
  rw [h]
  exact ⟨rfl, rfl, fun rs q => by simp [createSuccessResponse]⟩

/-- Claim C10 witness: a concrete OPTIONS request against a configured
environment. -/
theorem options_method_witness :
    (handleRecommend recognize0 env0 reqOpt).response.status = 405
    ∧ (handleRecommend recognize0 env0 reqOpt).response.errorCode
        = some "METHOD_NOT_ALLOWED"
    ∧ ∀ (results : List StickerResult) (query : String),
        ("Access-Control-Allow-Methods", "GET, POST, OPTIONS")
          ∈ (createSuccessResponse results query).headers :=
  options_method_rejected recognize0 env0 reqOpt store0 rfl rfl

end Nako
